import Mathlib

/- Verification development for the GCP VM start/stop FastAPI service.
   Shallow embedding of: VM name canonicalization (vm_operations_handler.py and
   vm_name_utils.py), the authorization policy, the operation executor in both
   SSE-streaming and JSON modes, error sanitization, and the VM zone cache
   (vm_cache.py) refresh and lookup logic, together with theorems about them. -/

/-- Python substring test `needle in hay`. -/
def pyContains (hay needle : String) : Bool :=
  hay.data.tails.any (fun t => needle.data.isPrefixOf t)

/-- Python `s.startswith(pre)`. -/
def pyStartsWith (s pre : String) : Bool := pre.data.isPrefixOf s.data

/-- Python `s.endswith(suf)`. -/
def pyEndsWith (s suf : String) : Bool := suf.data.isSuffixOf s.data

/-- Python `s.lower()` (ASCII range, which covers all strings in this code base). -/
def pyLower (s : String) : String := ⟨s.data.map Char.toLower⟩

/-- Characters removed by Python `str.strip()` with no argument. -/
def is_py_space (c : Char) : Bool :=
  c == ' ' || c == '\t' || c == '\n' || c == '\r' || c == Char.ofNat 11 || c == Char.ofNat 12

/-- Python `s.strip()`. -/
def pyStrip (s : String) : String :=
  ⟨((s.data.dropWhile is_py_space).reverse.dropWhile is_py_space).reverse⟩

/-- Python `s.split(sep)` on the underlying character list.  As in Python, the
    result always has at least one (possibly empty) field: `"".split(',') == ['']`. -/
def pySplitAux (sep : Char) : List Char → List (List Char)
  | [] => [[]]
  | c :: rest =>
    match pySplitAux sep rest with
    | [] => [[]]
    | h :: t => if c = sep then [] :: h :: t else (c :: h) :: t

/-- Python `s.split(sep)`. -/
def pySplit (sep : Char) (s : String) : List String :=
  (pySplitAux sep s.data).map (fun l => ⟨l⟩)

/-- Python `vmname.split('.')[0]`: the prefix of the string before the first dot. -/
def base_name (s : String) : String := ⟨s.data.takeWhile (fun c => !(c == '.'))⟩

theorem pySplitAux_ne_nil (sep : Char) : ∀ l : List Char, pySplitAux sep l ≠ []
  | [] => by simp [pySplitAux]
  | c :: rest => by
    unfold pySplitAux
    cases h : pySplitAux sep rest with
    | nil => simp
    | cons h t => by_cases hc : c = sep <;> simp [hc]

theorem pySplit_length_pos (sep : Char) (s : String) : 1 ≤ (pySplit sep s).length := by
  unfold pySplit
  rw [List.length_map]
  exact List.length_pos.mpr (pySplitAux_ne_nil sep s.data)

theorem takeWhile_self_eq {p : Char → Bool} :
    ∀ l : List Char, (l.takeWhile p).takeWhile p = l.takeWhile p
  | [] => rfl
  | c :: t => by
    cases hp : p c <;> simp [List.takeWhile_cons, hp, takeWhile_self_eq t]

theorem base_name_idem (s : String) : base_name (base_name s) = base_name s :=
  congrArg String.mk (takeWhile_self_eq s.data)

/-- Vanity-prefix table, `VANITY_TO_HOSTNAME` in vm_operations_handler.py (and
    the default `vanity_to_hostname` in vm_name_utils.py). -/
def VANITY_TO_HOSTNAME : List (String × String) :=
  [("nlq", "guedfocnlq03"), ("py-server", "guedfocdsml01")]

/-- `VMOperationsHandler.map_vanity_to_hostname`: drop everything from the first
    dot on, then return the real hostname of the first vanity prefix the base
    name starts with, else the base name. -/
def map_vanity_to_hostname (vmname : String) : String :=
  let base := base_name vmname
  match VANITY_TO_HOSTNAME.find? (fun p => pyStartsWith base p.1) with
  | some p => p.2
  | none => base

/-- `VMOperationsHandler.get_vanity_name`: display vanity for a VM; falls back to
    the original (unstripped) input when no vanity entry covers it. -/
def get_vanity_name (vmname : String) : String :=
  let base := base_name vmname
  match VANITY_TO_HOSTNAME.find? (fun p => base == p.2 || pyStartsWith base p.1) with
  | some p => p.1 ++ ".ibi.systems"
  | none => vmname

/-- Domain suffix list of `VMNameManager` in vm_name_utils.py. -/
def domain_suffixes : List String := [".dev.tibco.com", ".ibi.systems", ".tibco.com"]

/-- `VMNameManager.clean_vm_name`: strip the first matching known domain suffix
    (the Python loop breaks at the first match). -/
def clean_vm_name (vmname : String) : String :=
  if vmname = "" then vmname
  else
    match domain_suffixes.find? (fun suf => pyEndsWith vmname suf) with
    | some suf => ⟨vmname.data.take (vmname.data.length - suf.data.length)⟩
    | none => vmname

/-- `VMNameManager.map_vanity_to_hostname`: clean the name, then apply the
    vanity-prefix table. -/
def nm_map_vanity_to_hostname (vmname : String) : String :=
  let v := clean_vm_name vmname
  match VANITY_TO_HOSTNAME.find? (fun p => pyStartsWith v p.1) with
  | some p => p.2
  | none => v

theorem map_vanity_idem (s : String) :
    map_vanity_to_hostname (map_vanity_to_hostname s) = map_vanity_to_hostname s := by
  cases hfind : VANITY_TO_HOSTNAME.find? (fun p => pyStartsWith (base_name s) p.1) with
  | some p =>
    have hmem : p ∈ VANITY_TO_HOSTNAME := List.mem_of_find?_eq_some hfind
    have h1 : map_vanity_to_hostname s = p.2 := by
      simp only [map_vanity_to_hostname]
      rw [hfind]
    rw [h1]
    simp [VANITY_TO_HOSTNAME] at hmem
    rcases hmem with h | h <;> subst h <;> decide
  | none =>
    have h1 : map_vanity_to_hostname s = base_name s := by
      simp only [map_vanity_to_hostname]
      rw [hfind]
    rw [h1]
    simp only [map_vanity_to_hostname]
    rw [base_name_idem, hfind]

/-- C6 counterexample: the vm_name_utils.py canonicalization is not idempotent.
    On "a.ibi.systems.tibco.com" the first pass strips only ".tibco.com", and a
    second pass strips ".ibi.systems" as well, so applying it twice differs from
    applying it once. -/
theorem c6_counterexample :
    nm_map_vanity_to_hostname (nm_map_vanity_to_hostname "a.ibi.systems.tibco.com") ≠
      nm_map_vanity_to_hostname "a.ibi.systems.tibco.com" := by decide

/-- C6 (amended): the canonicalization used by the operations handler
    (`VMOperationsHandler.map_vanity_to_hostname`, which truncates at the first
    dot and then applies the vanity-prefix table) is idempotent for every input
    string; the vm_name_utils.py variant, which strips one known domain suffix
    per application, is not. -/
theorem c6_handler_canonicalize_idem (s : String) :
    map_vanity_to_hostname (map_vanity_to_hostname s) = map_vanity_to_hostname s :=
  map_vanity_idem s

/-- Character class `[^'"\s]` of the regex in `_sanitize_error`: anything except
    a single quote, a double quote, or whitespace. -/
def excluded_char (c : Char) : Bool :=
  c == Char.ofNat 39 || c == Char.ofNat 34 || is_py_space c

/-- Scan for the regex `instances/([^'"\s]+)` (re.search: leftmost occurrence of
    the literal "instances/" followed by at least one allowed character; the
    greedy group takes the maximal run of allowed characters). -/
def find_instances_group : List Char → Option (List Char)
  | [] => none
  | c :: rest =>
    if "instances/".data.isPrefixOf (c :: rest) then
      let grp := ((c :: rest).drop 10).takeWhile (fun ch => !(excluded_char ch))
      if grp = [] then find_instances_group rest else some grp
    else find_instances_group rest

/-- Group 1 of `re.search(r'instances/([^\'"\s]+)', error_message)` with the
    `"the specified VM"` fallback used in `_sanitize_error`. -/
def extract_vm_name (msg : String) : String :=
  match find_instances_group msg.data with
  | some l => ⟨l⟩
  | none => "the specified VM"

/-- Fixed not-found template of `_sanitize_error`. -/
def not_found_message (n : String) : String :=
  "Error: VM \x27" ++ n ++ "\x27 not found. Please verify the VM name and try again."

/-- Fixed insufficient-permissions template of `_sanitize_error`. -/
def permission_message : String :=
  "Error: Insufficient permissions to perform this operation."

/-- Fixed generic failure template of `_sanitize_error`. -/
def generic_error_message : String :=
  "An error occurred while performing the operation. Please check VM name and try again."

/-- `VMOperationsHandler._sanitize_error`. -/
def sanitize_error (error_message : String) : String :=
  if pyContains error_message "HTTPError 404" && pyContains error_message "was not found" then
    not_found_message (extract_vm_name error_message)
  else if pyContains (pyLower error_message) "permission" ||
      pyContains (pyLower error_message) "authorized" then
    permission_message
  else
    generic_error_message

/-- C2 counterexample: the sanitizer is the identity on its own generic failure
    template, so there is a raw error string that is returned to the caller
    verbatim, contradicting the claim's "never returned verbatim" clause. -/
theorem c2_counterexample :
    sanitize_error generic_error_message = generic_error_message := by decide

/-- C2 (amended): every output of the sanitizer is drawn from the fixed set of
    message templates — the not-found template around the VM name extracted by
    the regex, the fixed insufficient-permissions message, or the fixed generic
    failure message — so raw error text reaches the caller verbatim only in the
    degenerate case where the raw text itself equals one of these fixed
    templates. -/
theorem c2_sanitizer_templates (msg : String) :
    sanitize_error msg = not_found_message (extract_vm_name msg) ∨
      sanitize_error msg = permission_message ∨
      sanitize_error msg = generic_error_message := by
  unfold sanitize_error
  split
  · exact Or.inl rfl
  split
  · exact Or.inr (Or.inl rfl)
  · exact Or.inr (Or.inr rfl)

/-- Outcome of launching one external command: either a completed process with
    its exit code, stdout and stderr, or an exception raised while launching or
    communicating with it. -/
inductive ExecResult where
  | ok (returncode : Int) (stdout stderr : String)
  | exn (msg : String)
deriving DecidableEq, Repr

/-- Shape of the JSON object returned by the describe command in JSON mode
    (`json.loads(output)` in `execute_operation_json`): the fields the handler
    reads, each optional, with `networkInterfaces` a list of entries carrying an
    optional `networkIP`. -/
structure VmJson where
  name : Option String
  status : Option String
  machineType : Option String
  networkInterfaces : Option (List (Option String))
deriving DecidableEq, Repr

/-- External world seen by one executor invocation: the result of running a
    command line, the zone cache lookup (`vm_cache.get_vm_zone`), and the JSON
    parser (`json.loads`, `.error` meaning the parse raised). -/
structure Env where
  run : List String → ExecResult
  cache_zone : String → Option String
  parse_json : String → Except String VmJson

/-- Observable step of one executor invocation: an SSE event yielded to the
    stream, an external command launch, a zone-cache lookup, an appended
    OperationRecord row (`operation_logger.log_operation`), a raised
    HTTPException, or the JSON-mode success return value. -/
inductive Act where
  | sse (event : String) (data : String)
  | exec (cmd : List String)
  | lookupZone (name : String)
  | record (vm : String) (op : String) (client_ip : String) (zone : Option String)
      (status : String) (vanity : String)
  | httpError (code : Nat) (detail : String)
  | retOk (payload : String)
deriving DecidableEq, Repr

/-- Allow-list, default value of `ALLOWED_VMS` in vm_operations_handler.py
    (used when the ALLOWED_VMS environment variable is unset). -/
def ALLOWED_VMS : List String := ["guedfocnlq03", "guedfocdsml01", "guedfocwqa82"]

/-- Restricted operations, default value of `RESTRICTED_OPERATIONS`. -/
def RESTRICTED_OPERATIONS : List String := ["stop", "suspend"]

/-- Valid operation names accepted by the route (`valid_operations` in
    fastserver.py); also exactly the keys of the command table below. -/
def VALID_OPERATIONS : List String := ["status", "start", "stop", "suspend", "resume"]

/-- `VMOperationsHandler.is_vm_allowed_for_operation`: non-restricted operations
    are always allowed; restricted ones only for allow-listed canonical names
    (the argument is mapped through the vanity table again). -/
def is_vm_allowed_for_operation (vmname operation : String) : Bool :=
  if RESTRICTED_OPERATIONS.contains (pyLower operation) = false then true
  else ALLOWED_VMS.contains (map_vanity_to_hostname vmname)

/-- `VMOperationsHandler._get_gcloud_command` (`commands.get(operation)`). -/
def get_gcloud_command (operation vmname zone : String) : Option (List String) :=
  if operation = "status" then
    some ["gcloud", "compute", "instances", "describe", vmname, "--zone", zone]
  else if operation = "start" then
    some ["gcloud", "compute", "instances", "start", vmname, "--zone", zone]
  else if operation = "stop" then
    some ["gcloud", "compute", "instances", "stop", vmname, "--zone", zone]
  else if operation = "suspend" then
    some ["gcloud", "compute", "instances", "suspend", vmname, "--zone", zone]
  else if operation = "resume" then
    some ["gcloud", "compute", "instances", "resume", vmname, "--zone", zone]
  else none

/-- Describe command with CSV format used by the streaming status branch. -/
def describe_csv_cmd (real zone : String) : List String :=
  ["gcloud", "compute", "instances", "describe", real, "--zone", zone,
   "--format=csv[no-heading](status,machineType.basename(),networkInterfaces[0].networkIP)"]

/-- Describe command with JSON format used by the JSON-mode status branch. -/
def describe_json_cmd (real zone : String) : List String :=
  ["gcloud", "compute", "instances", "describe", real, "--zone", zone, "--format=json"]

/-- Python truthiness test `not zone` on an optional string: true for `None`
    and for the empty string. -/
def is_falsy_zone : Option String → Bool
  | none => true
  | some z => z == ""

/-- Allow-list rendered with display aliases, as in the denial message
    (`allowed_vms_display` joined with ", "). -/
def allowed_vms_display : String :=
  String.intercalate ", " (ALLOWED_VMS.map (fun vm => vm ++ " (" ++ get_vanity_name vm ++ ")"))

/-- Denial message of both executors. -/
def denial_message (vmname operation : String) : String :=
  "Operation \x27" ++ operation ++ "\x27 is not allowed for VM \x27" ++ vmname ++
    "\x27. Only allowed for: " ++ allowed_vms_display

/-- Zone-resolution failure message of both executors. -/
def no_zone_message (real : String) : String :=
  "VM " ++ real ++ " not found in any zone. Please specify a zone parameter."

/-- Rendering of the `status_info` dict the streaming status branch yields
    (stands in for `json.dumps(status_info)`; `vanity_name` is None when the
    vanity equals the real name). -/
def status_info_payload (real vanity vstatus machine_type ip_address zoneS : String) : String :=
  "name=" ++ real ++ "; vanity_name=" ++ (if vanity = real then "none" else vanity) ++
    "; status=" ++ vstatus ++ "; machine_type=" ++ machine_type ++
    "; ip_address=" ++ ip_address ++ "; zone=" ++ zoneS

/-- Lines produced by repeatedly calling `process.stdout.readline()` until EOF:
    the newline-separated lines of stdout, without a trailing empty line when
    stdout ends in a newline, and no lines at all for empty stdout. -/
def py_readlines (s : String) : List String :=
  if s = "" then []
  else
    let parts := pySplit '\n' s
    if pyEndsWith s "\n" then parts.dropLast else parts

/-- Body of `execute_vm_operation` after the authorization check and zone
    resolution succeeded (from the `started` OperationRecord on), for one
    resolved zone string. -/
def proceed_stream (env : Env) (real vanity operation client_ip zoneS : String) : List Act :=
  Act.record real operation client_ip (some zoneS) "started" vanity ::
  (if operation = "status" then
    Act.sse "info" ("Checking status of VM " ++ real ++ " in zone " ++ zoneS) ::
    Act.exec (describe_csv_cmd real zoneS) ::
    (match env.run (describe_csv_cmd real zoneS) with
     | .ok rc out err =>
       if rc = 0 then
         if 1 ≤ (pySplit ',' (pyStrip out)).length then
           [Act.record real operation client_ip (some zoneS) "completed" vanity,
            Act.sse "status"
              (status_info_payload real vanity (pyStrip ((pySplit ',' (pyStrip out)).headD ""))
                (if 2 ≤ (pySplit ',' (pyStrip out)).length then
                  pyStrip ((pySplit ',' (pyStrip out)).getD 1 "") else "unknown")
                (if 3 ≤ (pySplit ',' (pyStrip out)).length then
                  pyStrip ((pySplit ',' (pyStrip out)).getD 2 "") else "unknown") zoneS),
            Act.sse "success"
              ("VM " ++ real ++ " is " ++ pyStrip ((pySplit ',' (pyStrip out)).headD "") ++ " (" ++
                (if 2 ≤ (pySplit ',' (pyStrip out)).length then
                  pyStrip ((pySplit ',' (pyStrip out)).getD 1 "") else "unknown") ++ ", IP: " ++
                (if 3 ≤ (pySplit ',' (pyStrip out)).length then
                  pyStrip ((pySplit ',' (pyStrip out)).getD 2 "") else "unknown") ++ ")")]
         else
           [Act.sse "error" "Unable to parse VM status information"]
       else
         [Act.sse "error" (sanitize_error err),
          Act.record real operation client_ip (some zoneS) "failed" vanity]
     | .exn m =>
       [Act.sse "error" (sanitize_error m),
        Act.record real operation client_ip (some zoneS) "error" vanity])
  else
    match get_gcloud_command operation real zoneS with
    | none => [Act.sse "error" ("Invalid operation: " ++ operation)]
    | some cmd =>
      Act.sse "info" ("Executing " ++ operation ++ " on VM " ++ real ++ " in zone " ++ zoneS) ::
      Act.exec cmd ::
      (match env.run cmd with
       | .ok rc out err =>
         ((py_readlines out).map (fun l => Act.sse "progress" (pyStrip l))) ++
         (if rc = 0 then
           [Act.sse "success"
              ("Successfully completed " ++ operation ++ " operation on VM " ++ real ++
                " (" ++ vanity ++ ")"),
            Act.record real operation client_ip (some zoneS) "completed" vanity]
         else
           [Act.sse "error" (sanitize_error err),
            Act.record real operation client_ip (some zoneS) "failed" vanity])
       | .exn m =>
         [Act.sse "error" (sanitize_error m),
          Act.record real operation client_ip (some zoneS) "error" vanity]))

/-- `VMOperationsHandler.execute_vm_operation` (SSE streaming mode) as the
    sequence of its observable actions. -/
def execute_vm_operation (env : Env) (vmname operation : String) (zone : Option String)
    (client_ip : String) : List Act :=
  if is_vm_allowed_for_operation (map_vanity_to_hostname vmname) operation = false then
    [Act.sse "error" (denial_message vmname operation),
     Act.record (map_vanity_to_hostname vmname) operation client_ip zone "denied"
       (get_vanity_name vmname)]
  else if is_falsy_zone zone then
    Act.lookupZone (map_vanity_to_hostname vmname) ::
    (if is_falsy_zone (env.cache_zone (map_vanity_to_hostname vmname)) then
       [Act.sse "error" (no_zone_message (map_vanity_to_hostname vmname)),
        Act.record (map_vanity_to_hostname vmname) operation client_ip (some "unknown")
          "failed-no-zone" (get_vanity_name vmname)]
     else
       proceed_stream env (map_vanity_to_hostname vmname) (get_vanity_name vmname) operation
         client_ip ((env.cache_zone (map_vanity_to_hostname vmname)).getD ""))
  else
    proceed_stream env (map_vanity_to_hostname vmname) (get_vanity_name vmname) operation
      client_ip (zone.getD "")

/-- Past-tense rendering used by the JSON-mode success message. -/
def operation_past (operation : String) : String :=
  if operation = "start" then "started"
  else if operation = "stop" then "stopped"
  else if operation = "suspend" then "suspended"
  else if operation = "resume" then "resumed"
  else operation ++ "ed"

/-- Machine type extraction of the JSON status branch:
    `machineType.split("/")[-1]` when present, else the "unknown" sentinel. -/
def extract_machine_type (info : VmJson) : String :=
  match info.machineType with
  | none => "unknown"
  | some mt => (pySplit '/' mt).getLastD "unknown"

/-- Network IP extraction of the JSON status branch: first interface's
    `networkIP` when the list is present and non-empty, else "unknown". -/
def extract_network_ip (info : VmJson) : String :=
  match info.networkInterfaces with
  | none => "unknown"
  | some [] => "unknown"
  | some (h :: _) => h.getD "unknown"

/-- Rendering of the `instance_info` payload returned by the JSON status branch
    (stands in for the returned dict). -/
def instance_info_payload (name vstatus zoneS machineType networkIp : String) : String :=
  "name=" ++ name ++ "; status=" ++ vstatus ++ "; zone=" ++ zoneS ++
    "; machineType=" ++ machineType ++ "; networkIP=" ++ networkIp

/-- Scan for the first "instances/" whose greedy `[^'"]+` group is non-empty,
    with no newline allowed before it (the lazy `.*?` of the 404 regex cannot
    cross a line). -/
def inst_scan : List Char → Option (List Char)
  | [] => none
  | c :: rest =>
    if c = '\n' then none
    else
      if "instances/".data.isPrefixOf (c :: rest) then
        let grp := ((c :: rest).drop 10).takeWhile
          (fun ch => !(ch == Char.ofNat 39 || ch == Char.ofNat 34))
        if grp = [] then inst_scan rest else some grp
      else inst_scan rest

/-- Tail of the 404 regex after "The resource 'projects/": a non-empty `[^/]+`
    group, a literal slash, then the lazy scan for "instances/" and its group. -/
def resource_tail (l : List Char) : Option (List Char) :=
  let g1 := l.takeWhile (fun ch => !(ch == '/'))
  if g1 = [] then none
  else
    match l.drop g1.length with
    | '/' :: l3 => inst_scan l3
    | _ => none

/-- Scan for the leftmost full match of the 404 regex. -/
def resource_scan : List Char → Option (List Char)
  | [] => none
  | c :: rest =>
    if "The resource \x27projects/".data.isPrefixOf (c :: rest) then
      match resource_tail ((c :: rest).drop "The resource \x27projects/".data.length) with
      | some g => some g
      | none => resource_scan rest
    else resource_scan rest

/-- Group 2 (the instance name) of
    `re.search(r"The resource 'projects/([^/]+)/.*?instances/([^'\"]+)", error_msg)`
    in the JSON status failure branch. -/
def match_resource_error (msg : String) : Option String :=
  (resource_scan msg.data).map (fun l => ⟨l⟩)

/-- Body of `execute_operation_json` after the authorization check and zone
    resolution succeeded, for one resolved zone string. -/
def proceed_json (env : Env) (real vanity operation client_ip zoneS : String) : List Act :=
  Act.record real operation client_ip (some zoneS) "started" vanity ::
  (if operation = "status" then
    Act.exec (describe_json_cmd real zoneS) ::
    (match env.run (describe_json_cmd real zoneS) with
     | .ok rc out err =>
       if rc = 0 then
         match env.parse_json out with
         | .ok info =>
           [Act.record real operation client_ip (some zoneS) "completed" vanity,
            Act.retOk
              (instance_info_payload (info.name.getD "unknown") (info.status.getD "unknown")
                zoneS (extract_machine_type info) (extract_network_ip info) ++
                (if vanity = real then "" else "; vanity_name=" ++ vanity))]
         | .error m =>
           [Act.record real operation client_ip (some zoneS) "error" vanity,
            Act.httpError 500 (sanitize_error m)]
       else
         Act.record real operation client_ip (some zoneS) "failed" vanity ::
         (match match_resource_error err with
          | some inst =>
            [Act.httpError 404
              ("Error: The resource \x27" ++ inst ++ "\x27 was not found in zone \x27" ++
                zoneS ++ "\x27.")]
          | none => [Act.httpError 500 (sanitize_error err)])
     | .exn m =>
       [Act.record real operation client_ip (some zoneS) "error" vanity,
        Act.httpError 500 (sanitize_error m)])
  else if operation ∈ ["start", "stop", "suspend", "resume"] then
    match get_gcloud_command operation real zoneS with
    | some cmd =>
      Act.exec cmd ::
      (match env.run cmd with
       | .ok rc _ err =>
         if rc = 0 then
           [Act.record real operation client_ip (some zoneS) "completed" vanity,
            Act.retOk
              ("VM " ++ real ++ " (" ++ vanity ++ ") " ++ operation_past operation ++
                " successfully.")]
         else
           [Act.record real operation client_ip (some zoneS) "failed" vanity,
            Act.httpError 500 (sanitize_error err)]
       | .exn m =>
         [Act.record real operation client_ip (some zoneS) "error" vanity,
          Act.httpError 500 (sanitize_error m)])
    | none =>
      -- unreachable for these four operations; Python would raise a TypeError
      -- caught by the generic handler
      [Act.record real operation client_ip (some zoneS) "error" vanity,
       Act.httpError 500 (sanitize_error "TypeError")]
  else
    [Act.httpError 400 ("Invalid operation: " ++ operation)])

/-- `VMOperationsHandler.execute_operation_json` (single-response mode) as the
    sequence of its observable actions, the last one being either the success
    return value or the raised HTTPException. -/
def execute_operation_json (env : Env) (vmname operation : String) (zone : Option String)
    (client_ip : String) : List Act :=
  if is_vm_allowed_for_operation (map_vanity_to_hostname vmname) operation = false then
    [Act.record (map_vanity_to_hostname vmname) operation client_ip zone "denied"
       (get_vanity_name vmname),
     Act.httpError 403 (denial_message vmname operation)]
  else if is_falsy_zone zone then
    Act.lookupZone (map_vanity_to_hostname vmname) ::
    (if is_falsy_zone (env.cache_zone (map_vanity_to_hostname vmname)) then
       [Act.record (map_vanity_to_hostname vmname) operation client_ip (some "unknown")
          "failed-no-zone" (get_vanity_name vmname),
        Act.httpError 404 (no_zone_message (map_vanity_to_hostname vmname))]
     else
       proceed_json env (map_vanity_to_hostname vmname) (get_vanity_name vmname) operation
         client_ip ((env.cache_zone (map_vanity_to_hostname vmname)).getD ""))
  else
    proceed_json env (map_vanity_to_hostname vmname) (get_vanity_name vmname) operation
      client_ip (zone.getD "")

/-- Default environment used for concrete evaluations: every command exits 0
    with empty output, every cache lookup resolves, JSON parsing raises. -/
def env0 : Env :=
  ⟨fun _ => .ok 0 "" "", fun _ => some "us-east4-a", fun _ => .error "invalid json"⟩

/-- Recognizer for external command launches in a trace. -/
def is_exec_act : Act → Bool
  | .exec _ => true
  | _ => false

/-- Status column of an OperationRecord action, if any. -/
def record_status : Act → Option String
  | .record _ _ _ _ st _ => some st
  | _ => none

/-- Terminal-status OperationRecord rows: completed, failed, or error. -/
def is_terminal_record : Act → Bool
  | .record _ _ _ _ st _ => st == "completed" || st == "failed" || st == "error"
  | _ => false

/-- Number of terminal-status OperationRecord rows in a trace. -/
def count_terminal (t : List Act) : Nat := (t.filter is_terminal_record).length

/-- Whether the trace wrote an OperationRecord with status "started". -/
def has_started (t : List Act) : Bool :=
  t.any (fun a => record_status a == some "started")

/-- Number of OperationRecord rows with the given status. -/
def count_records_with (st : String) (t : List Act) : Nat :=
  (t.filter (fun a => record_status a == some st)).length

theorem execute_stream_shape (env : Env) (vmname operation : String) (zone : Option String)
    (client_ip : String) :
    execute_vm_operation env vmname operation zone client_ip =
        [Act.sse "error" (denial_message vmname operation),
         Act.record (map_vanity_to_hostname vmname) operation client_ip zone "denied"
           (get_vanity_name vmname)] ∨
      execute_vm_operation env vmname operation zone client_ip =
        [Act.lookupZone (map_vanity_to_hostname vmname),
         Act.sse "error" (no_zone_message (map_vanity_to_hostname vmname)),
         Act.record (map_vanity_to_hostname vmname) operation client_ip (some "unknown")
           "failed-no-zone" (get_vanity_name vmname)] ∨
      (∃ z, execute_vm_operation env vmname operation zone client_ip =
        Act.lookupZone (map_vanity_to_hostname vmname) ::
          proceed_stream env (map_vanity_to_hostname vmname) (get_vanity_name vmname)
            operation client_ip z) ∨
      (∃ z, execute_vm_operation env vmname operation zone client_ip =
        proceed_stream env (map_vanity_to_hostname vmname) (get_vanity_name vmname)
          operation client_ip z) := by
  unfold execute_vm_operation
  split
  · exact Or.inl rfl
  · split
    · split
      · exact Or.inr (Or.inl rfl)
      · exact Or.inr (Or.inr (Or.inl ⟨_, rfl⟩))
    · exact Or.inr (Or.inr (Or.inr ⟨_, rfl⟩))

theorem execute_json_shape (env : Env) (vmname operation : String) (zone : Option String)
    (client_ip : String) :
    execute_operation_json env vmname operation zone client_ip =
        [Act.record (map_vanity_to_hostname vmname) operation client_ip zone "denied"
           (get_vanity_name vmname),
         Act.httpError 403 (denial_message vmname operation)] ∨
      execute_operation_json env vmname operation zone client_ip =
        [Act.lookupZone (map_vanity_to_hostname vmname),
         Act.record (map_vanity_to_hostname vmname) operation client_ip (some "unknown")
           "failed-no-zone" (get_vanity_name vmname),
         Act.httpError 404 (no_zone_message (map_vanity_to_hostname vmname))] ∨
      (∃ z, execute_operation_json env vmname operation zone client_ip =
        Act.lookupZone (map_vanity_to_hostname vmname) ::
          proceed_json env (map_vanity_to_hostname vmname) (get_vanity_name vmname)
            operation client_ip z) ∨
      (∃ z, execute_operation_json env vmname operation zone client_ip =
        proceed_json env (map_vanity_to_hostname vmname) (get_vanity_name vmname)
          operation client_ip z) := by
  unfold execute_operation_json
  split
  · exact Or.inl rfl
  · split
    · split
      · exact Or.inr (Or.inl rfl)
      · exact Or.inr (Or.inr (Or.inl ⟨_, rfl⟩))
    · exact Or.inr (Or.inr (Or.inr ⟨_, rfl⟩))

/-- C1: for a restricted operation on a VM whose canonical name is not in the
    allow-list, both delivery modes produce exactly the denial trace: one denial
    outcome (SSE error event, resp. HTTP 403), exactly one OperationRecord with
    status "denied", zero external command launches, and nothing afterwards. -/
theorem c1_denied_no_exec (env : Env) (vmname operation : String) (zone : Option String)
    (client_ip : String)
    (hres : RESTRICTED_OPERATIONS.contains (pyLower operation) = true)
    (hallow : ALLOWED_VMS.contains (map_vanity_to_hostname vmname) = false) :
    execute_vm_operation env vmname operation zone client_ip =
        [Act.sse "error" (denial_message vmname operation),
         Act.record (map_vanity_to_hostname vmname) operation client_ip zone "denied"
           (get_vanity_name vmname)] ∧
      execute_operation_json env vmname operation zone client_ip =
        [Act.record (map_vanity_to_hostname vmname) operation client_ip zone "denied"
           (get_vanity_name vmname),
         Act.httpError 403 (denial_message vmname operation)] ∧
      (execute_vm_operation env vmname operation zone client_ip).filter is_exec_act = [] ∧
      (execute_operation_json env vmname operation zone client_ip).filter is_exec_act = [] ∧
      count_records_with "denied" (execute_vm_operation env vmname operation zone client_ip) = 1 ∧
      count_records_with "denied" (execute_operation_json env vmname operation zone client_ip) = 1 := by
  have hfalse : is_vm_allowed_for_operation (map_vanity_to_hostname vmname) operation = false := by
    have hmem : pyLower operation ∈ RESTRICTED_OPERATIONS := by simpa using hres
    have hnmem : map_vanity_to_hostname vmname ∉ ALLOWED_VMS := by simpa using hallow
    simp [is_vm_allowed_for_operation, map_vanity_idem]
    exact ⟨hmem, hnmem⟩
  have h1 : execute_vm_operation env vmname operation zone client_ip =
      [Act.sse "error" (denial_message vmname operation),
       Act.record (map_vanity_to_hostname vmname) operation client_ip zone "denied"
         (get_vanity_name vmname)] := by
    simp [execute_vm_operation, hfalse]
  have h2 : execute_operation_json env vmname operation zone client_ip =
      [Act.record (map_vanity_to_hostname vmname) operation client_ip zone "denied"
         (get_vanity_name vmname),
       Act.httpError 403 (denial_message vmname operation)] := by
    simp [execute_operation_json, hfalse]
  refine ⟨h1, h2, ?_, ?_, ?_, ?_⟩
  · rw [h1]; rfl
  · rw [h2]; rfl
  · rw [h1]; rfl
  · rw [h2]; rfl

/-- C1 witness: a concrete restricted operation ("stop") on a concrete
    non-allow-listed VM ("randomvm77") takes exactly the denial path. -/
theorem c1_witness :
    RESTRICTED_OPERATIONS.contains (pyLower "stop") = true ∧
      ALLOWED_VMS.contains (map_vanity_to_hostname "randomvm77") = false ∧
      ((execute_vm_operation env0 "randomvm77" "stop" none "10.1.2.3").filter is_exec_act = [] ∧
        count_records_with "denied"
          (execute_vm_operation env0 "randomvm77" "stop" none "10.1.2.3") = 1) :=
  ⟨by decide, by decide,
    (c1_denied_no_exec env0 "randomvm77" "stop" none "10.1.2.3" (by decide) (by decide)).2.2.1,
    (c1_denied_no_exec env0 "randomvm77" "stop" none "10.1.2.3" (by decide) (by decide)).2.2.2.2.1⟩

theorem filter_terminal_progress (L : List String) :
    (L.map (fun l => Act.sse "progress" (pyStrip l))).filter is_terminal_record = [] := by
  induction L with
  | nil => rfl
  | cons h t ih => simp [List.filter_cons, is_terminal_record, ih]

theorem count_terminal_cons_false (a : Act) (t : List Act) (h : is_terminal_record a = false) :
    count_terminal (a :: t) = count_terminal t := by
  simp [count_terminal, List.filter_cons, h]

theorem count_terminal_progress_append (L : List String) (rest : List Act) :
    count_terminal ((L.map (fun l => Act.sse "progress" (pyStrip l))) ++ rest) =
      count_terminal rest := by
  unfold count_terminal
  rw [List.filter_append, filter_terminal_progress, List.nil_append]

theorem get_gcloud_command_none (operation vmname zone : String)
    (h1 : ¬operation = "status") (h2 : ¬operation = "start") (h3 : ¬operation = "stop")
    (h4 : ¬operation = "suspend") (h5 : ¬operation = "resume") :
    get_gcloud_command operation vmname zone = none := by
  unfold get_gcloud_command
  rw [if_neg h1, if_neg h2, if_neg h3, if_neg h4, if_neg h5]


theorem count_terminal_cons_started (v o i : String) (z : Option String) (a : String)
    (t : List Act) :
    count_terminal (Act.record v o i z "started" a :: t) = count_terminal t := by
  simp [count_terminal, List.filter_cons, is_terminal_record]

theorem count_terminal_cons_sse (e d : String) (t : List Act) :
    count_terminal (Act.sse e d :: t) = count_terminal t := by
  simp [count_terminal, List.filter_cons, is_terminal_record]

theorem count_terminal_cons_exec (c : List String) (t : List Act) :
    count_terminal (Act.exec c :: t) = count_terminal t := by
  simp [count_terminal, List.filter_cons, is_terminal_record]

theorem count_terminal_cons_lookup (n : String) (t : List Act) :
    count_terminal (Act.lookupZone n :: t) = count_terminal t := by
  simp [count_terminal, List.filter_cons, is_terminal_record]

theorem proceed_stream_count (env : Env) (real vanity operation client_ip zoneS : String) :
    count_terminal (proceed_stream env real vanity operation client_ip zoneS) =
      if operation ∈ VALID_OPERATIONS then 1 else 0 := by
  by_cases hst : operation = "status"
  · subst hst
    rw [if_pos (by decide : ("status" : String) ∈ VALID_OPERATIONS)]
    unfold proceed_stream
    rw [if_pos rfl]
    cases hr : env.run (describe_csv_cmd real zoneS) with
    | ok rc out err =>
      dsimp only
      by_cases h0 : rc = 0
      · rw [if_pos h0, if_pos (pySplit_length_pos ',' (pyStrip out))]
        rfl
      · rw [if_neg h0]
        rfl
    | exn m => rfl
  · unfold proceed_stream
    rw [if_neg hst]
    by_cases h2 : operation = "start"
    case pos =>
      subst h2
      rw [if_pos (by decide : ("start" : String) ∈ VALID_OPERATIONS)]
      rw [show get_gcloud_command "start" real zoneS =
        some ["gcloud", "compute", "instances", "start", real, "--zone", zoneS] from rfl]
      dsimp only
      cases hr : env.run ["gcloud", "compute", "instances", "start", real, "--zone", zoneS] with
      | ok rc out err =>
        dsimp only
        rw [count_terminal_cons_started, count_terminal_cons_sse,
          count_terminal_cons_exec, count_terminal_progress_append]
        by_cases h0 : rc = 0
        · rw [if_pos h0]; rfl
        · rw [if_neg h0]; rfl
      | exn m => rfl
    case neg =>
    by_cases h3 : operation = "stop"
    case pos =>
      subst h3
      rw [if_pos (by decide : ("stop" : String) ∈ VALID_OPERATIONS)]
      rw [show get_gcloud_command "stop" real zoneS =
        some ["gcloud", "compute", "instances", "stop", real, "--zone", zoneS] from rfl]
      dsimp only
      cases hr : env.run ["gcloud", "compute", "instances", "stop", real, "--zone", zoneS] with
      | ok rc out err =>
        dsimp only
        rw [count_terminal_cons_started, count_terminal_cons_sse,
          count_terminal_cons_exec, count_terminal_progress_append]
        by_cases h0 : rc = 0
        · rw [if_pos h0]; rfl
        · rw [if_neg h0]; rfl
      | exn m => rfl
    case neg =>
    by_cases h4 : operation = "suspend"
    case pos =>
      subst h4
      rw [if_pos (by decide : ("suspend" : String) ∈ VALID_OPERATIONS)]
      rw [show get_gcloud_command "suspend" real zoneS =
        some ["gcloud", "compute", "instances", "suspend", real, "--zone", zoneS] from rfl]
      dsimp only
      cases hr : env.run ["gcloud", "compute", "instances", "suspend", real, "--zone", zoneS] with
      | ok rc out err =>
        dsimp only
        rw [count_terminal_cons_started, count_terminal_cons_sse,
          count_terminal_cons_exec, count_terminal_progress_append]
        by_cases h0 : rc = 0
        · rw [if_pos h0]; rfl
        · rw [if_neg h0]; rfl
      | exn m => rfl
    case neg =>
    by_cases h5 : operation = "resume"
    case pos =>
      subst h5
      rw [if_pos (by decide : ("resume" : String) ∈ VALID_OPERATIONS)]
      rw [show get_gcloud_command "resume" real zoneS =
        some ["gcloud", "compute", "instances", "resume", real, "--zone", zoneS] from rfl]
      dsimp only
      cases hr : env.run ["gcloud", "compute", "instances", "resume", real, "--zone", zoneS] with
      | ok rc out err =>
        dsimp only
        rw [count_terminal_cons_started, count_terminal_cons_sse,
          count_terminal_cons_exec, count_terminal_progress_append]
        by_cases h0 : rc = 0
        · rw [if_pos h0]; rfl
        · rw [if_neg h0]; rfl
      | exn m => rfl
    case neg =>
      rw [if_neg (by simp [VALID_OPERATIONS, hst, h2, h3, h4, h5])]
      rw [get_gcloud_command_none operation real zoneS hst h2 h3 h4 h5]
      rfl

theorem proceed_json_count (env : Env) (real vanity operation client_ip zoneS : String) :
    count_terminal (proceed_json env real vanity operation client_ip zoneS) =
      if operation ∈ VALID_OPERATIONS then 1 else 0 := by
  by_cases hst : operation = "status"
  · subst hst
    rw [if_pos (by decide : ("status" : String) ∈ VALID_OPERATIONS)]
    unfold proceed_json
    rw [if_pos rfl]
    cases hr : env.run (describe_json_cmd real zoneS) with
    | ok rc out err =>
      dsimp only
      by_cases h0 : rc = 0
      · rw [if_pos h0]
        cases hp : env.parse_json out with
        | ok info => rfl
        | error m => rfl
      · rw [if_neg h0]
        cases hm : match_resource_error err with
        | some inst => rfl
        | none => rfl
    | exn m => rfl
  · unfold proceed_json
    rw [if_neg hst]
    by_cases h2 : operation = "start"
    case pos =>
      subst h2
      rw [if_pos (by decide : ("start" : String) ∈ VALID_OPERATIONS)]
      rw [if_pos (by decide : ("start" : String) ∈ ["start", "stop", "suspend", "resume"])]
      rw [show get_gcloud_command "start" real zoneS =
        some ["gcloud", "compute", "instances", "start", real, "--zone", zoneS] from rfl]
      dsimp only
      cases hr : env.run ["gcloud", "compute", "instances", "start", real, "--zone", zoneS] with
      | ok rc out err =>
        dsimp only
        by_cases h0 : rc = 0
        · rw [if_pos h0]; rfl
        · rw [if_neg h0]; rfl
      | exn m => rfl
    case neg =>
    by_cases h3 : operation = "stop"
    case pos =>
      subst h3
      rw [if_pos (by decide : ("stop" : String) ∈ VALID_OPERATIONS)]
      rw [if_pos (by decide : ("stop" : String) ∈ ["start", "stop", "suspend", "resume"])]
      rw [show get_gcloud_command "stop" real zoneS =
        some ["gcloud", "compute", "instances", "stop", real, "--zone", zoneS] from rfl]
      dsimp only
      cases hr : env.run ["gcloud", "compute", "instances", "stop", real, "--zone", zoneS] with
      | ok rc out err =>
        dsimp only
        by_cases h0 : rc = 0
        · rw [if_pos h0]; rfl
        · rw [if_neg h0]; rfl
      | exn m => rfl
    case neg =>
    by_cases h4 : operation = "suspend"
    case pos =>
      subst h4
      rw [if_pos (by decide : ("suspend" : String) ∈ VALID_OPERATIONS)]
      rw [if_pos (by decide : ("suspend" : String) ∈ ["start", "stop", "suspend", "resume"])]
      rw [show get_gcloud_command "suspend" real zoneS =
        some ["gcloud", "compute", "instances", "suspend", real, "--zone", zoneS] from rfl]
      dsimp only
      cases hr : env.run ["gcloud", "compute", "instances", "suspend", real, "--zone", zoneS] with
      | ok rc out err =>
        dsimp only
        by_cases h0 : rc = 0
        · rw [if_pos h0]; rfl
        · rw [if_neg h0]; rfl
      | exn m => rfl
    case neg =>
    by_cases h5 : operation = "resume"
    case pos =>
      subst h5
      rw [if_pos (by decide : ("resume" : String) ∈ VALID_OPERATIONS)]
      rw [if_pos (by decide : ("resume" : String) ∈ ["start", "stop", "suspend", "resume"])]
      rw [show get_gcloud_command "resume" real zoneS =
        some ["gcloud", "compute", "instances", "resume", real, "--zone", zoneS] from rfl]
      dsimp only
      cases hr : env.run ["gcloud", "compute", "instances", "resume", real, "--zone", zoneS] with
      | ok rc out err =>
        dsimp only
        by_cases h0 : rc = 0
        · rw [if_pos h0]; rfl
        · rw [if_neg h0]; rfl
      | exn m => rfl
    case neg =>
      rw [if_neg (by simp [hst, h2, h3, h4, h5] :
        ¬operation ∈ ["start", "stop", "suspend", "resume"])]
      rw [if_neg (by simp [VALID_OPERATIONS, hst, h2, h3, h4, h5] :
        ¬operation ∈ VALID_OPERATIONS)]
      rfl

/-- C5 (amended): in both delivery modes, an invocation that writes an
    OperationRecord with status "started" writes exactly one terminal-status
    record (completed, failed, or error) when the operation name is one of the
    five dispatchable operations, and — contrary to the claim — zero terminal
    records on the invalid-operation path, where the stream emits an error event
    (resp. JSON mode raises HTTP 400) and stops with the "started" row dangling. -/
theorem c5_started_terminal_count (env : Env) (vmname operation : String) (zone : Option String)
    (client_ip : String) :
    (has_started (execute_vm_operation env vmname operation zone client_ip) = true →
      count_terminal (execute_vm_operation env vmname operation zone client_ip) =
        if operation ∈ VALID_OPERATIONS then 1 else 0) ∧
      (has_started (execute_operation_json env vmname operation zone client_ip) = true →
        count_terminal (execute_operation_json env vmname operation zone client_ip) =
          if operation ∈ VALID_OPERATIONS then 1 else 0) := by
  constructor
  · intro h
    rcases execute_stream_shape env vmname operation zone client_ip with h1 | h1 | ⟨z, h1⟩ | ⟨z, h1⟩
    · rw [h1] at h
      exact absurd h Bool.false_ne_true
    · rw [h1] at h
      exact absurd h Bool.false_ne_true
    · rw [h1, count_terminal_cons_lookup, proceed_stream_count]
    · rw [h1, proceed_stream_count]
  · intro h
    rcases execute_json_shape env vmname operation zone client_ip with h1 | h1 | ⟨z, h1⟩ | ⟨z, h1⟩
    · rw [h1] at h
      exact absurd h Bool.false_ne_true
    · rw [h1] at h
      exact absurd h Bool.false_ne_true
    · rw [h1, count_terminal_cons_lookup, proceed_json_count]
    · rw [h1, proceed_json_count]

/-- C5 witness: a concrete "start" run that wrote the "started" row ends with
    exactly one terminal record. -/
theorem c5_witness :
    has_started (execute_vm_operation env0 "vmx" "start" (some "z1") "10.0.0.1") = true ∧
      count_terminal (execute_vm_operation env0 "vmx" "start" (some "z1") "10.0.0.1") =
        if "start" ∈ VALID_OPERATIONS then 1 else 0 :=
  ⟨by decide,
    (c5_started_terminal_count env0 "vmx" "start" (some "z1") "10.0.0.1").1 (by decide)⟩

/-- C5 counterexample: with an operation name that has no corresponding external
    command ("frobnicate" is not restricted, so it passes authorization), the
    streaming executor writes the "started" record and then stops after an
    "Invalid operation" error event, writing zero terminal-status records —
    refuting "exactly one terminal record on every path". -/
theorem c5_counterexample :
    has_started (execute_vm_operation env0 "vm1" "frobnicate" (some "z1") "10.0.0.1") = true ∧
      count_terminal (execute_vm_operation env0 "vm1" "frobnicate" (some "z1") "10.0.0.1") = 0 := by
  decide

/-- C8: evaluation of the streaming status branch on a successful describe call
    whose output is the empty record (zero usable fields).  The executor still
    takes the success path: it writes OperationRecord "completed", yields the
    status payload with empty status and both "unknown" sentinels, yields a
    success event, and never emits the parse-failure message — the
    "Unable to parse VM status information" branch is unreachable because a
    Python split always returns at least one field. -/
theorem c8_empty_record_still_success :
    execute_vm_operation env0 "guedfocwqa82" "status" (some "us-east4-a") "10.0.0.9" =
        [Act.record "guedfocwqa82" "status" "10.0.0.9" (some "us-east4-a") "started" "guedfocwqa82",
         Act.sse "info" "Checking status of VM guedfocwqa82 in zone us-east4-a",
         Act.exec (describe_csv_cmd "guedfocwqa82" "us-east4-a"),
         Act.record "guedfocwqa82" "status" "10.0.0.9" (some "us-east4-a") "completed" "guedfocwqa82",
         Act.sse "status"
           (status_info_payload "guedfocwqa82" "guedfocwqa82" "" "unknown" "unknown" "us-east4-a"),
         Act.sse "success" "VM guedfocwqa82 is  (unknown, IP: unknown)"] ∧
      count_records_with "completed"
        (execute_vm_operation env0 "guedfocwqa82" "status" (some "us-east4-a") "10.0.0.9") = 1 ∧
      (execute_vm_operation env0 "guedfocwqa82" "status" (some "us-east4-a") "10.0.0.9").all
        (fun a => !(a == Act.sse "error" "Unable to parse VM status information")) = true := by
  decide

/-- Target check used for C10: every OperationRecord row names this VM, every
    launched command carries it as the instance argument (index 4 of every
    gcloud command built by the handler), and every cache lookup asks for it. -/
def targets_vm (real : String) : Act → Bool
  | .record v _ _ _ _ _ => v == real
  | .exec c => c.getD 4 "" == real
  | .lookupZone n => n == real
  | _ => true

theorem progress_all_targets (real : String) (L : List String) :
    ((L.map (fun l => Act.sse "progress" (pyStrip l))).all (targets_vm real)) = true := by
  induction L with
  | nil => rfl
  | cons h t ih => simp [targets_vm, ih]

theorem get_gcloud_command_index4 (operation vmname zone : String) (cmd : List String)
    (hg : get_gcloud_command operation vmname zone = some cmd) :
    cmd[4]?.getD "" = vmname := by
  unfold get_gcloud_command at hg
  by_cases h1 : operation = "status"
  · rw [if_pos h1] at hg
    injection hg with h
    subst h
    rfl
  · rw [if_neg h1] at hg
    by_cases h2 : operation = "start"
    · rw [if_pos h2] at hg
      injection hg with h
      subst h
      rfl
    · rw [if_neg h2] at hg
      by_cases h3 : operation = "stop"
      · rw [if_pos h3] at hg
        injection hg with h
        subst h
        rfl
      · rw [if_neg h3] at hg
        by_cases h4 : operation = "suspend"
        · rw [if_pos h4] at hg
          injection hg with h
          subst h
          rfl
        · rw [if_neg h4] at hg
          by_cases h5 : operation = "resume"
          · rw [if_pos h5] at hg
            injection hg with h
            subst h
            rfl
          · rw [if_neg h5] at hg
            exact Option.noConfusion hg

theorem proceed_stream_targets (env : Env) (real vanity operation client_ip zoneS : String) :
    (proceed_stream env real vanity operation client_ip zoneS).all (targets_vm real) = true := by
  unfold proceed_stream
  by_cases hst : operation = "status"
  · rw [if_pos hst]
    cases hr : env.run (describe_csv_cmd real zoneS) with
    | ok rc out err =>
      dsimp only
      by_cases h0 : rc = 0
      · rw [if_pos h0]
        split <;> simp [targets_vm, describe_csv_cmd, List.getD]
      · rw [if_neg h0]
        simp [targets_vm, describe_csv_cmd, List.getD]
    | exn m => simp [targets_vm, describe_csv_cmd, List.getD]
  · rw [if_neg hst]
    cases hg : get_gcloud_command operation real zoneS with
    | none => simp [targets_vm]
    | some cmd =>
      have hc : cmd[4]?.getD "" = real := get_gcloud_command_index4 operation real zoneS cmd hg
      dsimp only
      cases hr : env.run cmd with
      | ok rc out err =>
        dsimp only
        by_cases h0 : rc = 0
        · rw [if_pos h0]
          simp [targets_vm, hc, progress_all_targets]
        · rw [if_neg h0]
          simp [targets_vm, hc, progress_all_targets]
      | exn m => simp [targets_vm, hc]

theorem proceed_json_targets (env : Env) (real vanity operation client_ip zoneS : String) :
    (proceed_json env real vanity operation client_ip zoneS).all (targets_vm real) = true := by
  unfold proceed_json
  by_cases hst : operation = "status"
  · rw [if_pos hst]
    cases hr : env.run (describe_json_cmd real zoneS) with
    | ok rc out err =>
      dsimp only
      by_cases h0 : rc = 0
      · rw [if_pos h0]
        cases hp : env.parse_json out with
        | ok info => simp [targets_vm, describe_json_cmd, List.getD]
        | error m => simp [targets_vm, describe_json_cmd, List.getD]
      · rw [if_neg h0]
        cases hm : match_resource_error err with
        | some inst => simp [targets_vm, describe_json_cmd, List.getD]
        | none => simp [targets_vm, describe_json_cmd, List.getD]
    | exn m => simp [targets_vm, describe_json_cmd, List.getD]
  · rw [if_neg hst]
    split
    · cases hg : get_gcloud_command operation real zoneS with
      | none => simp [targets_vm]
      | some cmd =>
        have hc : cmd[4]?.getD "" = real := get_gcloud_command_index4 operation real zoneS cmd hg
        dsimp only
        cases hr : env.run cmd with
        | ok rc out err =>
          dsimp only
          by_cases h0 : rc = 0
          · rw [if_pos h0]
            simp [targets_vm, hc]
          · rw [if_neg h0]
            simp [targets_vm, hc]
        | exn m => simp [targets_vm, hc]
    · simp [targets_vm]

theorem execute_stream_targets (env : Env) (vmname operation : String) (zone : Option String)
    (client_ip : String) :
    (execute_vm_operation env vmname operation zone client_ip).all
      (targets_vm (map_vanity_to_hostname vmname)) = true := by
  rcases execute_stream_shape env vmname operation zone client_ip with h | h | ⟨z, h⟩ | ⟨z, h⟩ <;>
    rw [h] <;> simp [targets_vm, proceed_stream_targets]

theorem execute_json_targets (env : Env) (vmname operation : String) (zone : Option String)
    (client_ip : String) :
    (execute_operation_json env vmname operation zone client_ip).all
      (targets_vm (map_vanity_to_hostname vmname)) = true := by
  rcases execute_json_shape env vmname operation zone client_ip with h | h | ⟨z, h⟩ | ⟨z, h⟩ <;>
    rw [h] <;> simp [targets_vm, proceed_json_targets]

/-- C10: vanity-name resolution is prefix-based and over-broad.  Any
    client-supplied identifier whose first dot-separated label merely starts
    with the configured prefix "nlq" canonicalizes to the configured real
    hostname "guedfocnlq03", and in both delivery modes every OperationRecord,
    every launched external command's instance argument, and every zone-cache
    lookup then target that mapped hostname rather than the supplied name. -/
theorem c10_vanity_prefix_overbroad (env : Env) (vmname operation : String)
    (zone : Option String) (client_ip : String)
    (h : pyStartsWith (base_name vmname) "nlq" = true) :
    map_vanity_to_hostname vmname = "guedfocnlq03" ∧
      (execute_vm_operation env vmname operation zone client_ip).all
        (targets_vm "guedfocnlq03") = true ∧
      (execute_operation_json env vmname operation zone client_ip).all
        (targets_vm "guedfocnlq03") = true := by
  have hfind : List.find? (fun p => pyStartsWith (base_name vmname) p.1) VANITY_TO_HOSTNAME =
      some ("nlq", "guedfocnlq03") :=
    List.find?_cons_of_pos _ h
  have hmap : map_vanity_to_hostname vmname = "guedfocnlq03" := by
    simp only [map_vanity_to_hostname]
    rw [hfind]
  exact ⟨hmap, hmap ▸ execute_stream_targets env vmname operation zone client_ip,
    hmap ▸ execute_json_targets env vmname operation zone client_ip⟩

/-- C10 witness: the client-supplied name "nlqevil.attacker.example" starts with
    the vanity prefix, so a "stop" request is resolved, authorized, executed and
    audited against "guedfocnlq03". -/
theorem c10_witness :
    pyStartsWith (base_name "nlqevil.attacker.example") "nlq" = true ∧
      map_vanity_to_hostname "nlqevil.attacker.example" = "guedfocnlq03" ∧
      (execute_vm_operation env0 "nlqevil.attacker.example" "stop" (some "us-east4-a")
        "10.9.9.9").all (targets_vm "guedfocnlq03") = true :=
  ⟨by decide,
    (c10_vanity_prefix_overbroad env0 "nlqevil.attacker.example" "stop" (some "us-east4-a")
      "10.9.9.9" (by decide)).1,
    (c10_vanity_prefix_overbroad env0 "nlqevil.attacker.example" "stop" (some "us-east4-a")
      "10.9.9.9" (by decide)).2.1⟩

/-- Python dict insertion `m[k] = v`: updating an existing key keeps its
    position, a new key is appended (dicts preserve insertion order). -/
def dinsert (m : List (String × String)) (k v : String) : List (String × String) :=
  if m.any (fun p => p.1 == k) then m.map (fun p => if p.1 == k then (k, v) else p)
  else m ++ [(k, v)]

/-- Python dict lookup `m.get(k)` / `k in m`. -/
def dget (m : List (String × String)) (k : String) : Option String :=
  (m.find? (fun p => p.1 == k)).map (fun p => p.2)

/-- `VMCache.get_vm_zone` as a pure function of the current `vm_zone_map`:
    reject the empty name, drop the domain part, then try an exact match, a
    lowercase match, and finally a partial (substring either way) match over the
    dict in insertion order; a miss returns None. -/
def get_vm_zone (m : List (String × String)) (vm_name : String) : Option String :=
  if vm_name = "" then none
  else
    match dget m (base_name vm_name) with
    | some z => some z
    | none =>
      match dget m (pyLower (base_name vm_name)) with
      | some z => some z
      | none =>
        match m.find? (fun p =>
            pyContains p.1 (base_name vm_name) || pyContains (base_name vm_name) p.1) with
        | some p => some p.2
        | none => none

/-- External calls made by one cache refresh: the zones-list command and one
    instances-list command per zone. -/
structure CacheEnv where
  zones_result : ExecResult
  instances_result : String → ExecResult

/-- External actions of a refresh: the zones listing, each per-zone scan, and
    the snapshot save (`_save_to_pickle`). -/
inductive CacheAction where
  | listZones
  | scanZone (zone : String)
  | save (m : List (String × String))
deriving DecidableEq, Repr

/-- Python filter `[z for z in output.decode().strip().split(newline) if z]`. -/
def py_parse_lines (s : String) : List String :=
  (pySplit '\n' (pyStrip s)).filter (fun z => z != "")

/-- One VM entry: `vm_zone_map[vm] = zone; vm_zone_map[vm.lower()] = zone`. -/
def insert_vm (m : List (String × String)) (vm zone : String) : List (String × String) :=
  dinsert (dinsert m vm zone) (pyLower vm) zone

/-- Effect of scanning one zone on the live `vm_zone_map` (the body of the
    per-zone loop of `VMCache.update_cache`): a non-zero exit code or an
    exception leaves the map unchanged, a success inserts every parsed VM name
    (with its lowercase twin). -/
def scan_step (env : CacheEnv) (m : List (String × String)) (zone : String) :
    List (String × String) :=
  match env.instances_result zone with
  | .ok rc out _ =>
    if rc = 0 then
      if out = "" then m
      else (py_parse_lines out).foldl (fun acc vm => insert_vm acc vm zone) m
    else m
  | .exn _ => m

/-- Result of the per-zone loop: the final map, the sequence of map values
    observable at the loop's await points (after each zone), the scan actions,
    and whether an exception aborted the loop (propagating to the outer
    `except`, which returns without saving). -/
structure ScanOut where
  final : List (String × String)
  states : List (List (String × String))
  acts : List CacheAction
  aborted : Bool
deriving Repr

def scan_zones (env : CacheEnv) : List (String × String) → List String → ScanOut
  | m, [] => ⟨m, [], [], false⟩
  | m, z :: rest =>
    match env.instances_result z with
    | .exn _ => ⟨m, [], [.scanZone z], true⟩
    | .ok _ _ _ =>
      let r := scan_zones env (scan_step env m z) rest
      ⟨r.final, scan_step env m z :: r.states, .scanZone z :: r.acts, r.aborted⟩

/-- Result of one `VMCache.update_cache` run: the final `vm_zone_map`, the list
    of map values a concurrent `get_vm_zone` (which runs between the refresh's
    await points) can observe, and the external actions performed. -/
structure RefreshOut where
  final : List (String × String)
  states : List (List (String × String))
  acts : List CacheAction
deriving Repr

/-- `VMCache.update_cache`.  The method first calls `self.vm_zone_map.clear()`,
    so the run is independent of the previous mapping and the empty map is the
    first observable state (it is live while the zones command is awaited).
    A failing or empty zones listing returns with the map still empty; per-zone
    failures are skipped; the snapshot is saved only when the final map is
    non-empty and no exception aborted the loop. -/
def update_cache (env : CacheEnv) : RefreshOut :=
  match env.zones_result with
  | .exn _ => ⟨[], [[]], [.listZones]⟩
  | .ok rc zout _ =>
    if rc = 0 then
      if py_parse_lines zout = [] then ⟨[], [[]], [.listZones]⟩
      else
        ⟨(scan_zones env [] (py_parse_lines zout)).final,
         [] :: (scan_zones env [] (py_parse_lines zout)).states,
         .listZones :: (scan_zones env [] (py_parse_lines zout)).acts ++
           (if (scan_zones env [] (py_parse_lines zout)).aborted then []
            else if (scan_zones env [] (py_parse_lines zout)).final = [] then []
            else [.save (scan_zones env [] (py_parse_lines zout)).final])⟩
    else ⟨[], [[]], [.listZones]⟩

/-- Recognizer for the snapshot-save action. -/
def is_save_action : CacheAction → Bool
  | .save _ => true
  | _ => false

/-- Recognizer for per-zone scan actions. -/
def is_scan_action : CacheAction → Bool
  | .scanZone _ => true
  | _ => false

theorem scan_zones_no_save (env : CacheEnv) :
    ∀ (zs : List String) (m : List (String × String)),
      ((scan_zones env m zs).acts).all (fun a => !(is_save_action a)) = true
  | [], m => rfl
  | z :: rest, m => by
    unfold scan_zones
    cases hi : env.instances_result z with
    | exn msg => rfl
    | ok rc out err =>
      dsimp only
      rw [List.all_cons, scan_zones_no_save env rest (scan_step env m z)]
      rfl

/-- Refresh environment whose zones-list command fails. -/
def env3 : CacheEnv := ⟨.ok 1 "" "boom", fun _ => .ok 0 "" ""⟩

/-- C3 counterexample: a refresh whose zone listing fails produces the empty
    mapping, and because `update_cache` clears the live map before doing
    anything else, a lookup that succeeded against the pre-refresh mapping
    (the map "abc" -> "zone1") returns not-found after the refresh completes — the
    previously good in-memory mapping is not kept. -/
theorem c3_counterexample :
    get_vm_zone [("abc", "zone1")] "abc" = some "zone1" ∧
      (update_cache env3).final = [] ∧
      get_vm_zone (update_cache env3).final "abc" = none := by decide

/-- C3 (amended): a refresh that produces an empty mapping performs no snapshot
    save, so the previously persisted snapshot on disk is kept — but only the
    durable copy: the live in-memory mapping was cleared at the start of the
    refresh and stays empty. -/
theorem c3_empty_refresh_keeps_snapshot (env : CacheEnv)
    (h : (update_cache env).final = []) :
    (update_cache env).acts.all (fun a => !(is_save_action a)) = true := by
  unfold update_cache at h ⊢
  cases hz : env.zones_result with
  | exn m => rfl
  | ok rc zout zerr =>
    rw [hz] at h
    dsimp only at h
    dsimp only
    by_cases h0 : rc = 0
    · rw [if_pos h0] at h ⊢
      by_cases hz2 : py_parse_lines zout = []
      · rw [if_pos hz2]
        rfl
      · rw [if_neg hz2] at h ⊢
        dsimp only at h ⊢
        by_cases hab : (scan_zones env [] (py_parse_lines zout)).aborted = true
        · rw [if_pos hab]
          rw [List.all_append, List.all_cons, scan_zones_no_save env (py_parse_lines zout) []]
          rfl
        · rw [if_neg hab, if_pos h]
          rw [List.all_append, List.all_cons, scan_zones_no_save env (py_parse_lines zout) []]
          rfl
    · rw [if_neg h0]
      rfl

/-- C3 witness: with the failing-zone-listing environment the refresh result is
    empty and no snapshot save happens. -/
theorem c3_witness :
    (update_cache env3).final = [] ∧
      (update_cache env3).acts.all (fun a => !(is_save_action a)) = true :=
  ⟨by decide, c3_empty_refresh_keeps_snapshot env3 (by decide)⟩

/-- Two-zone refresh environment: zone z1 holds VM "a", zone z2 holds VM "b". -/
def env4 : CacheEnv :=
  ⟨.ok 0 "z1\nz2" "", fun z => if z = "z1" then .ok 0 "a\n" "" else .ok 0 "b\n" ""⟩

/-- C4 counterexample: during a refresh of env4 a concurrent lookup can observe
    the map with the single entry "a" -> "z1" — an intermediate state that is neither the whole
    pre-refresh mapping (here "old" -> "z0") nor the whole post-refresh mapping;
    a lookup of "old" succeeded before the refresh and fails against that
    half-written state.  The refresh mutates the live map in place and takes no
    lock, so the claimed atomic replacement does not exist. -/
theorem c4_counterexample :
    [("a", "z1")] ∈ (update_cache env4).states ∧
      ¬([("a", "z1")] = [("old", "z0")] ∨ [("a", "z1")] = (update_cache env4).final) ∧
      get_vm_zone [("old", "z0")] "old" = some "z0" ∧
      get_vm_zone [("a", "z1")] "old" = none := by decide

/-- Mapping accumulated from the first n zones of the refresh (starting from
    the cleared, empty map). -/
def build_upto (env : CacheEnv) (n : Nat) : List (String × String) :=
  match env.zones_result with
  | .ok rc zout _ =>
    if rc = 0 then ((py_parse_lines zout).take n).foldl (scan_step env) [] else []
  | .exn _ => []

theorem scan_zones_states_mem (env : CacheEnv) :
    ∀ (zs : List String) (m : List (String × String)) (s : List (String × String)),
      s ∈ (scan_zones env m zs).states → ∃ n, s = (zs.take n).foldl (scan_step env) m
  | [], m, s => by
    intro h
    exact absurd h (List.not_mem_nil s)
  | z :: rest, m, s => by
    intro h
    unfold scan_zones at h
    cases hi : env.instances_result z with
    | exn msg =>
      rw [hi] at h
      exact absurd h (List.not_mem_nil s)
    | ok rc out err =>
      rw [hi] at h
      dsimp only at h
      rcases List.mem_cons.mp h with h1 | h1
      · refine ⟨1, ?_⟩
        rw [h1]
        rfl
      · rcases scan_zones_states_mem env rest (scan_step env m z) s h1 with ⟨n, hn⟩
        refine ⟨n + 1, ?_⟩
        rw [hn]
        rfl

/-- C4 (amended): the refresh does not replace the directory atomically under
    the lock; it clears the live mapping and rebuilds it in place, zone by zone,
    between await points.  What a concurrent lookup can observe is exactly a
    zone-prefix accumulation of the new mapping being built (starting from the
    empty map) — never a mix involving pre-refresh entries, and only the last
    state is the complete new mapping. -/
theorem c4_states_are_prefix_builds (env : CacheEnv) (s : List (String × String))
    (h : s ∈ (update_cache env).states) : ∃ n, s = build_upto env n := by
  unfold update_cache at h
  cases hz : env.zones_result with
  | exn m =>
    rw [hz] at h
    dsimp only at h
    simp only [List.mem_singleton] at h
    refine ⟨0, ?_⟩
    rw [h]
    unfold build_upto
    rw [hz]
  | ok rc zout zerr =>
    rw [hz] at h
    dsimp only at h
    by_cases h0 : rc = 0
    · rw [if_pos h0] at h
      have hb : ∀ n, build_upto env n =
          ((py_parse_lines zout).take n).foldl (scan_step env) [] := by
        intro n
        unfold build_upto
        rw [hz]
        dsimp only
        rw [if_pos h0]
      by_cases hz2 : py_parse_lines zout = []
      · rw [if_pos hz2] at h
        simp only [List.mem_singleton] at h
        refine ⟨0, ?_⟩
        rw [h, hb 0]
        rfl
      · rw [if_neg hz2] at h
        dsimp only at h
        rcases List.mem_cons.mp h with h1 | h1
        · refine ⟨0, ?_⟩
          rw [h1, hb 0]
          rfl
        · rcases scan_zones_states_mem env (py_parse_lines zout) [] s h1 with ⟨n, hn⟩
          refine ⟨n, ?_⟩
          rw [hb n]
          exact hn
    · rw [if_neg h0] at h
      simp only [List.mem_singleton] at h
      refine ⟨0, ?_⟩
      rw [h]
      unfold build_upto
      rw [hz]
      dsimp only
      rw [if_neg h0]

/-- C4 witness: the observable intermediate state "a" -> "z1" of env4 is the
    accumulation over the first zone. -/
theorem c4_witness :
    [("a", "z1")] ∈ (update_cache env4).states ∧
      ∃ n, [("a", "z1")] = build_upto env4 n :=
  ⟨by decide, c4_states_are_prefix_builds env4 [("a", "z1")] (by decide)⟩

/-- Static fallback zone list of `ZoneManager` (zone_manager.py). -/
def fallback_zones : List String :=
  ["us-central1-a", "us-central1-b", "us-east1-b", "asia-east1-a", "asia-southeast1-a"]

/-- `ZoneManager.get_all_zones`: on a successful listing with non-empty output,
    filter the parsed zone names by the target region prefixes; on a failed
    listing, empty output, or a raised JSON parse (`parsed = .error`), return
    the static fallback list.  `parsed` stands for `json.loads(result.stdout)`
    followed by extracting each entry's "name". -/
def get_all_zones (target_regions : List String) (res : ExecResult)
    (parsed : Except String (List String)) : List String :=
  match res with
  | .exn _ => fallback_zones
  | .ok rc out _ =>
    if rc = 0 ∧ pyStrip out ≠ "" then
      match parsed with
      | .ok names => names.filter (fun z => target_regions.any (fun r => pyStartsWith z r))
      | .error _ => fallback_zones
    else fallback_zones

/-- A failed external call: non-zero exit code or a raised exception. -/
def is_failure : ExecResult → Bool
  | .ok rc _ _ => !(rc == 0)
  | .exn _ => true

/-- Refresh environment whose zones-list command exits non-zero. -/
def env7 : CacheEnv := ⟨.ok 1 "" "permission denied", fun _ => .ok 0 "x\n" ""⟩

/-- C7 counterexample: when the zone-listing call of `VMCache.update_cache`
    fails, the refresh performs no per-zone scan at all and leaves the mapping
    empty — it aborts instead of falling back to the (non-empty) static zone
    list and continuing. -/
theorem c7_counterexample :
    (update_cache env7).acts = [CacheAction.listZones] ∧
      (update_cache env7).acts.all (fun a => !(is_scan_action a)) = true ∧
      (update_cache env7).final = [] ∧
      fallback_zones ≠ [] := by decide

/-- C7 (amended): the fallback-to-static-zones behavior exists only in
    `ZoneManager.get_all_zones` (used by the separate VMScanner component),
    which returns the fixed fallback list whenever the zone listing fails; the
    live refresh `VMCache.update_cache` instead aborts on a failed zone listing,
    scanning zero zones and leaving the mapping empty. -/
theorem c7_fallback_only_in_zone_manager (target_regions : List String) (res : ExecResult)
    (parsed : Except String (List String)) (env : CacheEnv)
    (hres : is_failure res = true) (henv : is_failure env.zones_result = true) :
    get_all_zones target_regions res parsed = fallback_zones ∧
      (update_cache env).acts = [CacheAction.listZones] ∧
      (update_cache env).final = [] := by
  refine ⟨?_, ?_⟩
  · unfold get_all_zones
    cases res with
    | exn m => rfl
    | ok rc out err =>
      have hrc : ¬rc = 0 := by
        simpa [is_failure] using hres
      dsimp only
      rw [if_neg (fun hh : rc = 0 ∧ pyStrip out ≠ "" => hrc hh.1)]
  · unfold update_cache
    cases hz : env.zones_result with
    | exn m => exact ⟨rfl, rfl⟩
    | ok rc zout zerr =>
      rw [hz] at henv
      have hrc : ¬rc = 0 := by
        simpa [is_failure] using henv
      dsimp only
      rw [if_neg hrc]
      exact ⟨rfl, rfl⟩

/-- C7 witness: a concrete failed zones listing makes `get_all_zones` return
    the fallback list while `update_cache` aborts with no zones scanned. -/
theorem c7_witness :
    is_failure (ExecResult.ok 1 "" "err") = true ∧
      is_failure env7.zones_result = true ∧
      get_all_zones ["us-", "asia-"] (ExecResult.ok 1 "" "err") (Except.error "boom") =
        fallback_zones ∧
      (update_cache env7).acts = [CacheAction.listZones] :=
  ⟨by decide, by decide,
    (c7_fallback_only_in_zone_manager ["us-", "asia-"] (ExecResult.ok 1 "" "err")
      (Except.error "boom") env7 (by decide) (by decide)).1,
    (c7_fallback_only_in_zone_manager ["us-", "asia-"] (ExecResult.ok 1 "" "err")
      (Except.error "boom") env7 (by decide) (by decide)).2.1⟩

/-- C9: directory lookup falls back to substring matching — on the cache whose
    mapping is exactly "abc" -> "zone1" (its lowercase twin coincides), looking
    up "xabc" returns "zone1" through the substring relation; and a name that
    matches no key exactly, case-insensitively, or by substring returns
    not-found (None) rather than an error. -/
theorem c9_substring_fallback (m : List (String × String)) (vm_name : String)
    (h1 : dget m (base_name vm_name) = none)
    (h2 : dget m (pyLower (base_name vm_name)) = none)
    (h3 : m.all (fun p => !(pyContains p.1 (base_name vm_name) ||
      pyContains (base_name vm_name) p.1)) = true) :
    get_vm_zone m vm_name = none ∧
      get_vm_zone [("abc", "zone1")] "xabc" = some "zone1" := by
  constructor
  · unfold get_vm_zone
    by_cases he : vm_name = ""
    · rw [if_pos he]
    · rw [if_neg he, h1, h2]
      have hf : m.find? (fun p => pyContains p.1 (base_name vm_name) ||
          pyContains (base_name vm_name) p.1) = none :=
        List.find?_eq_none.mpr (fun x hx =>
          by simpa using (List.all_eq_true.mp h3) x hx)
      rw [hf]
  · decide

/-- C9 witness: a cache with one unrelated key misses on every strategy and
    returns not-found, while the substring example resolves. -/
theorem c9_witness :
    get_vm_zone [("zzz", "z9")] "qq" = none ∧
      get_vm_zone [("abc", "zone1")] "xabc" = some "zone1" :=
  c9_substring_fallback [("zzz", "z9")] "qq" (by decide) (by decide) (by decide)
